import Mathlib

/-!
Shallow embedding of the orchestration core of the referral/upsell system:
the feature-enricher lambda (`src/aws/lambda/feature_enricher/lambda_function.py`)
and the orchestrator lambda (`src/aws/lambda/orchestrator/lambda_function.py`).

Python floats are modelled as exact rationals; `round(x, 2)` is modelled as
round-half-to-even at two decimals (CPython's rounding mode).  External
collaborators (DynamoDB, SSM, S3, Bedrock, CloudWatch) are modelled as explicit
outcome parameters: the inference endpoint becomes an oracle function from the
attempt number to its (already parsed) outcome, and persistence is modelled by
returning the record that would be written.
-/

namespace Referral

/-- CPython `round` to the nearest integer, ties to even. -/
def roundHalfEven (x : ℚ) : ℤ :=
  if x - x.floor < 1/2 then x.floor
  else if 1/2 < x - x.floor then x.floor + 1
  else if x.floor % 2 = 0 then x.floor else x.floor + 1

/-- Python `round(x, 2)`. -/
def round2 (x : ℚ) : ℚ := (roundHalfEven (100 * x) : ℚ) / 100

/-- Python `a or b` on an optional string (`None` and `""` are falsy). -/
def pyOrS (a : Option String) (b : String) : String :=
  match a with
  | some s => if s = "" then b else s
  | none => b

/-- Python truthiness of an optional string (`None` and `""` are falsy). -/
def pyTruthyS : Option String → Bool
  | some s => s ≠ ""
  | none => false

/-! ## Feature enricher (`feature_enricher/lambda_function.py`)

The webhook payload fields the enricher reads, flattened from the nested
dictionaries: `customer_data['customer']['email']`,
`customer_data.get('service', {}).get('satisfaction_score')`,
`customer_data.get('services_count')`,
`customer_data.get('customer_lifetime_value')`.  An absent nested key is
`none`. -/

structure CustomerData where
  customer_email : Option String
  satisfaction_score : Option ℚ
  services_count : Option ℤ
  customer_lifetime_value : Option String
deriving DecidableEq, Repr

/-- An existing Feature Store item, as read back by the enricher.  The code
checks `'satisfaction_avg' in existing_features` and
`'service_count' in existing_features`, so each field keeps its own key
presence. -/
structure ExistingFeatures where
  satisfaction_avg : Option ℚ
  service_count : Option ℤ
deriving DecidableEq, Repr

/-- Embedding of `calculate_satisfaction_avg` (feature_enricher lines 39-70). -/
def calculate_satisfaction_avg (customer_data : CustomerData)
    (existing_features : Option ExistingFeatures) : ℚ :=
  match customer_data.satisfaction_score with
  | none =>
    match existing_features with
    | some e =>
      match e.satisfaction_avg with
      | some a => a
      | none => 7/2
    | none => 7/2
  | some current_score =>
    match existing_features with
    | some e =>
      match e.satisfaction_avg, e.service_count with
      | some existing_avg, some existing_count =>
        round2 ((existing_avg * existing_count + current_score) / (existing_count + 1))
      | _, _ => current_score
    | none => current_score

/-- Embedding of `calculate_service_count` (feature_enricher lines 73-93).  The payload
check is `if services_count:`, so an explicit `0` falls through to the
default `1`. -/
def calculate_service_count (customer_data : CustomerData)
    (existing_features : Option ExistingFeatures) : ℤ :=
  match existing_features with
  | some e =>
    match e.service_count with
    | some c => c + 1
    | none =>
      match customer_data.services_count with
      | some n => if n = 0 then 1 else n
      | none => 1
  | none =>
    match customer_data.services_count with
    | some n => if n = 0 then 1 else n
    | none => 1

/-- The computed branch of `get_lifetime_value` (feature_enricher lines
112-124). -/
def classify_lifetime_value (service_count : ℤ) (satisfaction : ℚ) : String :=
  if 6 ≤ service_count ∧ 4 ≤ satisfaction then "high"
  else if 3 ≤ service_count ∨ 7/2 ≤ satisfaction then "medium"
  else "low"

/-- Embedding of `get_lifetime_value` (feature_enricher lines 96-124).  The explicit tier
check is `if lifetime_value:`, so an empty string falls through to the
computed classification. -/
def get_lifetime_value (customer_data : CustomerData)
    (existing_features : Option ExistingFeatures) : String :=
  match customer_data.customer_lifetime_value with
  | some lv =>
    if lv ≠ "" then lv.toLower
    else
      classify_lifetime_value (calculate_service_count customer_data existing_features)
        (calculate_satisfaction_avg customer_data existing_features)
  | none =>
    classify_lifetime_value (calculate_service_count customer_data existing_features)
      (calculate_satisfaction_avg customer_data existing_features)

/-- The feature record the enricher builds (timestamps and property features
are omitted: no claim mentions them). -/
structure FeatureRecord where
  customerEmail : String
  satisfaction_avg : ℚ
  service_count : ℤ
  lifetime_value : String
deriving DecidableEq, Repr

/-- Embedding of `enrich_customer_features` (feature_enricher lines 157-206).  The guard is
`if not customer_email: raise ValueError(...)`, so both a missing and an
empty email fail.  The Feature Store read is passed in as
`existing_features` (a failed read is `none`, line 175-182). -/
def enrich_customer_features (customer_data : CustomerData)
    (existing_features : Option ExistingFeatures) : Except String FeatureRecord :=
  match customer_data.customer_email with
  | none => .error "Customer email is required"
  | some e =>
    if e = "" then .error "Customer email is required"
    else
      .ok { customerEmail := e
            satisfaction_avg := calculate_satisfaction_avg customer_data existing_features
            service_count := calculate_service_count customer_data existing_features
            lifetime_value := get_lifetime_value customer_data existing_features }

/-- An event that carries only a satisfaction score (for the sequential
processing property). -/
def scoredEvent (s : ℚ) : CustomerData :=
  { customer_email := some "customer@example.com"
    satisfaction_score := some s
    services_count := none
    customer_lifetime_value := none }

/-- The Feature Store item written for a freshly enriched record (the store
item always carries both keys, feature_enricher lines 219-231). -/
def snapshotOf (r : FeatureRecord) : ExistingFeatures :=
  { satisfaction_avg := some r.satisfaction_avg
    service_count := some r.service_count }

/-- Sequentially process a list of scored events, each read-modify-write
seeing the snapshot written by the previous one. -/
def processSequence : List ℚ → Option ExistingFeatures → Option ExistingFeatures
  | [], ex => ex
  | s :: rest, ex =>
    match enrich_customer_features (scoredEvent s) ex with
    | .ok r => processSequence rest (some (snapshotOf r))
    | .error _ => none

/-! ## Agent resolution (`orchestrator/lambda_function.py` lines 59-121) -/

/-- Outcome of the registry query in `get_active_agent`: a production item was
found, the query succeeded but returned no item, or anything inside the `try`
raised (table-name lookup or the query itself). -/
inductive RegistryOutcome where
  | items (bedrockModel : String) (version : String)
      (promptTemplate : Option String) (config : List (String × String))
  | empty
  | error
deriving DecidableEq, Repr

/-- Outcome of the SSM lookup of `/referral-system/bedrock-model-id` (the
legacy fallback source).  A deterministic outcome: the retry of the same
lookup inside the outer `except` handler (lines 111-121) fails again when the
first attempt failed. -/
inductive SSMOutcome where
  | value (s : String)
  | error
deriving DecidableEq, Repr

structure AgentConfig where
  model_id : String
  version : String
  promptTemplate : Option String
  config : List (String × String)
deriving DecidableEq, Repr

/-- Embedding of `get_active_agent` (orchestrator lines 59-121).  On a registry item the
config is returned as is; on an empty registry or a registry error the SSM
legacy parameter is consulted; only when that also fails does the function
re-raise (`raise` at line 121; in the empty-registry case the SSM failure is
caught by the outer handler, which retries the same lookup and re-raises). -/
def get_active_agent (reg : RegistryOutcome) (ssm : SSMOutcome) :
    Except Unit AgentConfig :=
  match reg with
  | .items m v t c => .ok { model_id := m, version := v, promptTemplate := t, config := c }
  | .empty =>
    match ssm with
    | .value m => .ok { model_id := m, version := "legacy", promptTemplate := none, config := [] }
    | .error => .error ()
  | .error =>
    match ssm with
    | .value m => .ok { model_id := m, version := "legacy", promptTemplate := none, config := [] }
    | .error => .error ()

/-! ## Judgment step (`orchestrator/lambda_function.py` lines 359-524) -/

/-- Values appearing in the judgment dictionary. -/
inductive JVal where
  | b (x : Bool)
  | i (x : ℤ)
  | s (x : String)
  | ls (x : List String)
  | q (x : ℚ)
deriving DecidableEq, Repr

/-- A Python dict with string keys, as an association list. -/
abbrev JDict := List (String × JVal)

def jlookup : JDict → String → Option JVal
  | [], _ => none
  | (k, v) :: rest, key => if k = key then some v else jlookup rest key

/-- Python `d.get(key, default)` restricted to string values. -/
def dictGetS (d : JDict) (key : String) (default : String) : String :=
  match jlookup d key with
  | some (JVal.s v) => v
  | _ => default

/-- Python `d.get(key, default)` restricted to boolean values. -/
def dictGetB (d : JDict) (key : String) (default : Bool) : Bool :=
  match jlookup d key with
  | some (JVal.b v) => v
  | _ => default

/-- Python `d.get(key, default)` restricted to integer values. -/
def dictGetI (d : JDict) (key : String) (default : ℤ) : ℤ :=
  match jlookup d key with
  | some (JVal.i v) => v
  | _ => default

/-- Python `d.get(key, default)` restricted to string-list values. -/
def dictGetLS (d : JDict) (key : String) (default : List String) : List String :=
  match jlookup d key with
  | some (JVal.ls v) => v
  | _ => default

/-- The JSON object parsed out of the judge model's reply (each field via
`judgment.get(...)`, so every field is optional).  The judge prompt asks for
`approved`, `score`, `issues`, `feedback` and `reason`. -/
structure LLMJudgment where
  approved : Option Bool
  score : Option ℤ
  issues : Option (List String)
  feedback : Option String
  reason : Option String
deriving DecidableEq, Repr

/-- Outcome of one judge inference call: the parsed JSON object, or a raised
exception (transport failure or JSON parse failure) with its message. -/
inductive JudgeOutcome where
  | success (judgment : LLMJudgment)
  | failure (errMsg : String)
deriving DecidableEq, Repr

/-- Embedding of `call_bedrock_judge` (orchestrator lines 359-524).  On success it returns
the dictionary built at lines 507-513 — note that it carries no `reason` key,
whatever the parsed judgment contained.  On any exception it returns the
fail-closed dictionary of lines 518-524.  Wall-clock `judgment_time` is
modelled as `0`. -/
def call_bedrock_judge : JudgeOutcome → JDict
  | .success j =>
    [("approved", JVal.b (j.approved.getD false)),
     ("score", JVal.i (j.score.getD 0)),
     ("issues", JVal.ls (j.issues.getD [])),
     ("feedback", JVal.s (j.feedback.getD "")),
     ("judgment_time", JVal.q 0)]
  | .failure msg =>
    [("approved", JVal.b false),
     ("score", JVal.i 0),
     ("issues", JVal.ls ["Judge evaluation failed"]),
     ("feedback", JVal.s ("Error: " ++ msg)),
     ("judgment_time", JVal.q 0)]

/-! ## Generation step (`orchestrator/lambda_function.py` lines 246-356) -/

/-- The sampling temperature (line 323): `0.7 if retry_count == 0 else 0.8`. -/
def genTemperature (retry_count : ℕ) : ℚ :=
  if retry_count = 0 then 7/10 else 8/10

/-- The corrective-feedback block (lines 261-263): present only when
`retry_count > 0 and previous_feedback` (Python truthiness, so `None` and
`""` give an empty block). -/
def feedback_note (retry_count : ℕ) (previous_feedback : Option String) : String :=
  match previous_feedback with
  | some fb =>
    if 0 < retry_count ∧ fb ≠ "" then
      "\n\nIMPORTANT - Previous attempt was rejected:\n" ++ fb ++
        "\nPlease address these issues and select a different service if needed."
    else ""
  | none => ""

/-- The generator prompt up to the `{feedback_note}` interpolation point
(lines 271-305). -/
def generatorPromptPre (customer_data_str brand_guidelines features_text : String) : String :=
  "You are creating a personalized service upsell message for a pest control customer.\n\nCustomer Data (JSON):\n"
  ++ customer_data_str
  ++ "\n\nCompany Information & Service Catalog (JSON):\n"
  ++ brand_guidelines ++ features_text
  ++ "\n\nYour task:\n1. Analyze the customer data provided (it may have various fields - use what\x27s available)\n2. Look for patterns in service_history, property_info, current_plan, etc.\n3. Select ONE service from the catalog that would genuinely benefit this customer\n4. Create a brief, personalized message (150-200 words) that:\n   - References POSITIVE details from their data (loyal customer, property features, service frequency)\n   - Explains why this additional service makes sense for them\n   - Highlights 2-3 key benefits relevant to their situation\n   - Includes a soft call-to-action\n   - Maintains the brand voice (professional, friendly, reassuring)\n\nCRITICAL - What NOT to mention in the message:\n- DO NOT mention any complaints, issues, or negative experiences from service notes\n- DO NOT reference dissatisfaction, late arrivals, or service problems\n- DO NOT bring up past issues even if they\x27re in the data\n- DO NOT make the customer feel like you\x27re tracking negative things\n- Focus ONLY on positive aspects (loyalty, satisfaction, property needs, service patterns)\n\nExample: If data shows \"Customer complained about late technician\" → Don\x27t mention this in the message at all\n\nImportant:\n- Work with whatever fields are present in the customer data\n- Check current_plan to avoid recommending what they already have\n- If service_history exists, analyze patterns but only reference positive ones\n- If property_info exists, use it to inform recommendations\n- Use customer\x27s first name if available\n"

/-- The generator prompt after the `{feedback_note}` interpolation point
(lines 305-307). -/
def generatorPromptPost : String :=
  "\n\nOutput ONLY the message body text. No subject line, no \"Dear [Name]\" greeting - start directly with the content."

/-- The full prompt built by `call_bedrock_generator` (lines 261-307). -/
def call_bedrock_generator_prompt (customer_data_str brand_guidelines features_text : String)
    (retry_count : ℕ) (previous_feedback : Option String) : String :=
  generatorPromptPre customer_data_str brand_guidelines features_text
    ++ feedback_note retry_count previous_feedback
    ++ generatorPromptPost

/-! ## Retry controller (`orchestrator/lambda_function.py` lines 620-667) -/

def MAX_RETRIES : ℕ := 2

/-- One recorded generator invocation: the `retry_count` and
`previous_feedback` arguments it received and the temperature it used. -/
structure GenCall where
  retry_count : ℕ
  previous_feedback : Option String
  temperature : ℚ
deriving DecidableEq, Repr

/-- The mutable locals of the `while` loop (lines 621-626).  Wall-clock
timings are not modelled, so the last generation result is just its
`email_content`. -/
structure LoopState where
  retry_count : ℕ
  approved : Bool
  final_email_content : Option String
  final_judgment : Option JDict
  previous_feedback : Option String
deriving DecidableEq, Repr

/-- The `while retry_count <= MAX_RETRIES and not approved` loop (lines
628-667), with the generator's text and the judge's outcome supplied by
oracles indexed by the current `retry_count` (which uniquely identifies the
iteration).  Setting `approved = True` and the `break` on an
`appropriateness` rejection both end the loop, so both return here.  The fuel
`MAX_RETRIES + 1` covers every iteration the source loop can make. -/
def runLoop (genText : ℕ → String) (judgeOut : ℕ → JudgeOutcome) :
    ℕ → LoopState → List GenCall → LoopState × List GenCall
  | 0, st, tr => (st, tr)
  | fuel + 1, st, tr =>
    if st.retry_count ≤ MAX_RETRIES then
      if dictGetB (call_bedrock_judge (judgeOut st.retry_count)) "approved" false then
        ({ st with approved := true,
                   final_email_content := some (genText st.retry_count),
                   final_judgment := some (call_bedrock_judge (judgeOut st.retry_count)) },
         tr ++ [⟨st.retry_count, st.previous_feedback, genTemperature st.retry_count⟩])
      else
        if dictGetS (call_bedrock_judge (judgeOut st.retry_count)) "reason" "brand" =
            "appropriateness" then
          ({ st with final_email_content := some (genText st.retry_count),
                     final_judgment := some (call_bedrock_judge (judgeOut st.retry_count)) },
           tr ++ [⟨st.retry_count, st.previous_feedback, genTemperature st.retry_count⟩])
        else
          runLoop genText judgeOut fuel
            { st with
              previous_feedback :=
                some (dictGetS (call_bedrock_judge (judgeOut st.retry_count)) "feedback" ""),
              retry_count := st.retry_count + 1,
              final_judgment := some (call_bedrock_judge (judgeOut st.retry_count)),
              final_email_content := some (genText st.retry_count) }
            (tr ++ [⟨st.retry_count, st.previous_feedback, genTemperature st.retry_count⟩])
    else (st, tr)

/-- The trace of generator calls the loop makes from a not-yet-approved state
with attempt index `r` and pending feedback `pf` (used to characterize
`runLoop`'s trace). -/
def traceFrom (judgeOut : ℕ → JudgeOutcome) : ℕ → ℕ → Option String → List GenCall
  | 0, _, _ => []
  | fuel + 1, r, pf =>
    if r ≤ MAX_RETRIES then
      ⟨r, pf, genTemperature r⟩ ::
        (if dictGetB (call_bedrock_judge (judgeOut r)) "approved" false then []
         else if dictGetS (call_bedrock_judge (judgeOut r)) "reason" "brand" =
             "appropriateness" then []
         else traceFrom judgeOut fuel (r + 1)
           (some (dictGetS (call_bedrock_judge (judgeOut r)) "feedback" "")))
    else []

/-! ## Audit record (`orchestrator/lambda_function.py` lines 579-727) -/

/-- The `customer` sub-dictionary of the webhook payload as `process_message`
reads it. -/
structure WebhookCustomer where
  id : Option String
  email : Option String
  first_name : Option String
  last_name : Option String
deriving DecidableEq, Repr

/-- The DynamoDB item built at lines 680-698 (ids, timestamps and wall-clock
scores are outside the embedding). -/
structure DecisionRecord where
  customerEmail : String
  customerName : String
  emailContent : Option String
  emailSubject : String
  llmJudgeScore : ℤ
  judgeApproved : Bool
  judgeFeedback : String
  judgeIssues : List String
  rejectionReason : String
  status : String
  retryCount : ℕ
  agentVersion : String
deriving DecidableEq, Repr

/-- Embedding of `generate_email_subject` (lines 527-545): `random.choice` modelled by an
explicit choice index. -/
def generate_email_subject (customer_name : String) (choice : Fin 5) : String :=
  [customer_name ++ ", Enhance Your Home Protection",
   "Additional Protection Options for Your Home, " ++ customer_name,
   customer_name ++ ", Here\x27s How We Can Better Protect Your Home",
   "Recommended Service Upgrade for " ++ customer_name,
   customer_name ++ ", Take Your Pest Protection to the Next Level"].get choice

/-- Embedding of `process_message` (lines 579-727) from the point the collaborator lookups
have resolved: the loop, then the record assembly and the store write.  The
returned triple is (the record written by `store_in_dynamodb`, the generator
call trace, the function's return value).  The final return dictionary reads
`customer['email']` by direct key access (line 724), which raises `KeyError`
when the key is absent — after the record was already stored. -/
def process_message (customer : WebhookCustomer) (agent_version : String)
    (subject_choice : Fin 5) (genText : ℕ → String) (judgeOut : ℕ → JudgeOutcome) :
    DecisionRecord × List GenCall × Except Unit (String × Bool × ℕ) :=
  let init : LoopState :=
    { retry_count := 0, approved := false, final_email_content := none
      final_judgment := none, previous_feedback := none }
  let res := runLoop genText judgeOut (MAX_RETRIES + 1) init []
  let st := res.1
  let email_subject := generate_email_subject (customer.first_name.getD "Valued Customer") subject_choice
  let customer_name0 := ((customer.first_name.getD "") ++ " " ++ (customer.last_name.getD "")).trim
  let customer_name := if customer_name0 = "" then "Unknown Customer" else customer_name0
  let customer_email := pyOrS customer.email (pyOrS customer.id "unknown@example.com")
  let fj := st.final_judgment.getD []
  let record : DecisionRecord :=
    { customerEmail := customer_email
      customerName := customer_name
      emailContent := st.final_email_content
      emailSubject := email_subject
      llmJudgeScore := dictGetI fj "score" 0
      judgeApproved := dictGetB fj "approved" false
      judgeFeedback := dictGetS fj "feedback" ""
      judgeIssues := dictGetLS fj "issues" []
      rejectionReason := dictGetS fj "reason" "N/A"
      status := if st.approved then "approved" else "rejected"
      retryCount := st.retry_count
      agentVersion := agent_version }
  let ret : Except Unit (String × Bool × ℕ) :=
    match customer.email with
    | some e => .ok (e, st.approved, st.retry_count)
    | none => .error ()
  (record, res.2, ret)

/-! ## Helper lemmas -/

theorem pyOrS_none_none (b : String) : pyOrS none (pyOrS none b) = b := rfl

theorem processSequence_count (ss : List ℚ) : ∀ (a : ℚ) (c : ℤ),
    ∃ f, processSequence ss (some ⟨some a, some c⟩) = some f ∧
      f.service_count = some (c + ss.length) := by
  induction ss with
  | nil =>
    intro a c
    exact ⟨⟨some a, some c⟩, rfl, by simp⟩
  | cons s rest ih =>
    intro a c
    obtain ⟨f, hf, hc⟩ := ih (round2 ((a * c + s) / (c + 1))) (c + 1)
    refine ⟨f, ?_, ?_⟩
    · simpa [processSequence, enrich_customer_features, scoredEvent, snapshotOf,
        calculate_satisfaction_avg, calculate_service_count] using hf
    · rw [hc]
      congr 1
      push_cast [List.length_cons]
      ring

/-! ## Claims C4, C5, C6, C7, C8 -/

/-- C4: for every agent-resolution call where the registry returns no
production record or the registry query raises, `get_active_agent` does not
raise but returns a legacy configuration with version `legacy`, no prompt
template and empty config; it raises only when both the registry and the
legacy fallback source are unavailable. -/
theorem C4_agent_resolver_fallback (reg : RegistryOutcome) (ssm : SSMOutcome) :
    ((reg = .empty ∨ reg = .error) → ∀ m, ssm = .value m →
      get_active_agent reg ssm =
        .ok { model_id := m, version := "legacy", promptTemplate := none, config := [] }) ∧
    (get_active_agent reg ssm = .error () ↔ ((reg = .empty ∨ reg = .error) ∧ ssm = .error)) := by
  constructor
  · rintro (rfl | rfl) m rfl <;> rfl
  · cases reg <;> cases ssm <;> simp [get_active_agent]

theorem C4_agent_resolver_fallback_witness :
    (RegistryOutcome.empty = RegistryOutcome.empty ∨
      RegistryOutcome.empty = RegistryOutcome.error) ∧
    get_active_agent .empty (.value "model-x") =
      .ok { model_id := "model-x", version := "legacy", promptTemplate := none, config := [] } :=
  ⟨Or.inl rfl,
    (C4_agent_resolver_fallback .empty (.value "model-x")).1 (Or.inl rfl) "model-x" rfl⟩

set_option maxRecDepth 40000 in
/-- C5 (counterexample): the per-event update is rounded at every step, so
after processing the seven scores 2,2,2,2,2,3,2 sequentially, the stored
average is 2.15 while the mean of the scores rounded to 2 decimals is 2.14 —
the claimed consequence fails. -/
theorem C5_satisfaction_average_counterexample :
    processSequence [2, 2, 2, 2, 2, 3, 2] none =
      some { satisfaction_avg := some (43/20), service_count := some 7 } ∧
    round2 ((2 + 2 + 2 + 2 + 2 + 3 + 2 : ℚ) / 7) = 107/50 ∧
    (43/20 : ℚ) ≠ 107/50 := by
  with_unfolding_all decide

/-- C5 (amended): the per-event satisfaction-average computation is exactly as
stated (existing average, or 3.5, when the event carries no score; the
rounded running-average formula when a score and an existing (average, count)
pair exist; the score itself when no snapshot exists), and after processing N
scored events sequentially the stored `serviceCount` equals N — but the
stored average is the result of iterating the rounded per-event update, which
can differ from mean(s1..sN) rounded to 2 decimals. -/
theorem C5_satisfaction_average_amended :
    (∀ (cd : CustomerData) (ex : Option ExistingFeatures),
      (cd.satisfaction_score = none → ∀ e a, ex = some e → e.satisfaction_avg = some a →
        calculate_satisfaction_avg cd ex = a) ∧
      (cd.satisfaction_score = none →
        (ex = none ∨ ∃ e, ex = some e ∧ e.satisfaction_avg = none) →
        calculate_satisfaction_avg cd ex = 7/2) ∧
      (∀ s a c, cd.satisfaction_score = some s → ex = some ⟨some a, some c⟩ →
        calculate_satisfaction_avg cd ex = round2 ((a * c + s) / (c + 1))) ∧
      (∀ s, cd.satisfaction_score = some s → ex = none →
        calculate_satisfaction_avg cd ex = s)) ∧
    (∀ (s : ℚ) (ss : List ℚ), ∃ f, processSequence (s :: ss) none = some f ∧
      f.service_count = some (ss.length + 1)) := by
  constructor
  · intro cd ex
    refine ⟨?_, ?_, ?_, ?_⟩
    · intro h e a he ha
      simp [calculate_satisfaction_avg, h, he, ha]
    · intro h hex
      rcases hex with rfl | ⟨e, rfl, ha⟩
      · simp [calculate_satisfaction_avg, h]
      · simp [calculate_satisfaction_avg, h, ha]
    · intro s a c hs hex
      simp [calculate_satisfaction_avg, hs, hex]
    · intro s hs hex
      simp [calculate_satisfaction_avg, hs, hex]
  · intro s ss
    obtain ⟨f, hf, hc⟩ := processSequence_count ss s 1
    refine ⟨f, ?_, ?_⟩
    · simpa [processSequence, enrich_customer_features, scoredEvent, snapshotOf,
        calculate_satisfaction_avg, calculate_service_count] using hf
    · rw [hc]
      congr 1
      push_cast [List.length_cons]
      ring

theorem C5_satisfaction_average_amended_witness :
    (some (3 : ℚ) = some 3) ∧
    calculate_satisfaction_avg (scoredEvent 3) (some ⟨some 2, some 5⟩) =
      round2 ((2 * 5 + 3) / (5 + 1)) :=
  ⟨rfl,
    (C5_satisfaction_average_amended.1 (scoredEvent 3) (some ⟨some 2, some 5⟩)).2.2.1
      3 2 5 rfl rfl⟩

/-- C6: lifetime-value tier classification is a pure function of the inputs:
an explicitly supplied tier is used verbatim after case-folding; otherwise
the tier is high iff count ≥ 6 and satisfaction ≥ 4.0, else medium iff
count ≥ 3 or satisfaction ≥ 3.5, else low — exactly at the boundaries
(count = 6 with score 4.0 gives high; count = 3 gives medium even when the
score is below 3.5). -/
theorem C6_lifetime_value_tier (cd : CustomerData) (ex : Option ExistingFeatures) :
    (∀ lv, cd.customer_lifetime_value = some lv → lv ≠ "" →
      get_lifetime_value cd ex = lv.toLower) ∧
    (pyTruthyS cd.customer_lifetime_value = false →
      get_lifetime_value cd ex =
        classify_lifetime_value (calculate_service_count cd ex)
          (calculate_satisfaction_avg cd ex)) ∧
    (∀ (c : ℤ) (s : ℚ),
      (classify_lifetime_value c s = "high" ↔ 6 ≤ c ∧ 4 ≤ s) ∧
      (classify_lifetime_value c s = "medium" ↔ ¬(6 ≤ c ∧ 4 ≤ s) ∧ (3 ≤ c ∨ 7/2 ≤ s)) ∧
      (classify_lifetime_value c s = "low" ↔
        ¬(6 ≤ c ∧ 4 ≤ s) ∧ ¬(3 ≤ c ∨ 7/2 ≤ s))) ∧
    classify_lifetime_value 6 4 = "high" ∧
    (∀ s : ℚ, s < 7/2 → classify_lifetime_value 3 s = "medium") := by
  refine ⟨?_, ?_, ?_, ?_, ?_⟩
  · intro lv h hne
    simp [get_lifetime_value, h, hne]
  · intro h
    match hlv : cd.customer_lifetime_value with
    | none => simp [get_lifetime_value, hlv]
    | some lv =>
      rw [hlv] at h
      simp only [pyTruthyS, decide_eq_false_iff_not, not_not] at h
      simp [get_lifetime_value, hlv, h]
  · intro c s
    unfold classify_lifetime_value
    split_ifs with h1 h2 <;> simp_all
  · rfl
  · intro s hs
    unfold classify_lifetime_value
    rw [if_neg (by intro h; omega), if_pos (Or.inl (by omega))]

theorem C6_lifetime_value_tier_witness :
    ("HIGH" ≠ "") ∧
    get_lifetime_value
      { customer_email := some "a@b.com", satisfaction_score := none,
        services_count := none, customer_lifetime_value := some "HIGH" } none =
      "HIGH".toLower :=
  ⟨by decide,
    (C6_lifetime_value_tier
      { customer_email := some "a@b.com", satisfaction_score := none,
        services_count := none, customer_lifetime_value := some "HIGH" } none).1
      "HIGH" rfl (by decide)⟩

/-- C7 (counterexample): an event whose customer has neither email nor id is
fully processed by `process_message`: a decision record is assembled and
persisted with the default identity `unknown@example.com` (here even with
status `approved`), so decision processing does not fail with a validation
error before any side effect. -/
theorem C7_identity_validation_counterexample :
    (process_message ⟨none, none, none, none⟩ "legacy" 0 (fun _ => "draft")
        (fun _ => .success ⟨some true, some 9, some [], some "Great message", none⟩)).1.customerEmail
      = "unknown@example.com" ∧
    (process_message ⟨none, none, none, none⟩ "legacy" 0 (fun _ => "draft")
        (fun _ => .success ⟨some true, some 9, some [], some "Great message", none⟩)).1.status
      = "approved" := by
  with_unfolding_all decide

/-- C7 (amended): feature aggregation rejects an event with no resolvable
customer email (in particular one with neither email nor id) with a
validation error before any side effect; decision processing, however, does
not validate identity — it proceeds with the default identity
`unknown@example.com` and still persists a decision record. -/
theorem C7_identity_validation_amended :
    (∀ (cd : CustomerData) (ex : Option ExistingFeatures),
      (cd.customer_email = none ∨ cd.customer_email = some "") →
      enrich_customer_features cd ex = .error "Customer email is required") ∧
    (∀ (av : String) (choice : Fin 5) (g : ℕ → String) (j : ℕ → JudgeOutcome)
      (customer : WebhookCustomer), customer.email = none → customer.id = none →
      (process_message customer av choice g j).1.customerEmail = "unknown@example.com") := by
  constructor
  · intro cd ex h
    rcases h with h | h <;> simp [enrich_customer_features, h]
  · intro av choice g j customer h1 h2
    simp [process_message, h1, h2, pyOrS]

theorem C7_identity_validation_amended_witness :
    ((none : Option String) = none ∨ (none : Option String) = some "") ∧
    enrich_customer_features
      { customer_email := none, satisfaction_score := some 5,
        services_count := none, customer_lifetime_value := none } none =
      .error "Customer email is required" :=
  ⟨Or.inl rfl,
    C7_identity_validation_amended.1
      { customer_email := none, satisfaction_score := some 5,
        services_count := none, customer_lifetime_value := none } none (Or.inl rfl)⟩

/-- C8 (counterexample): for a new customer (no existing snapshot) whose
event carries `services_count = 8`, the produced service count is 8, not 1 —
refuting the claim's "serviceCount equals 1 for every new-customer event". -/
theorem C8_service_count_counterexample :
    calculate_service_count
      { customer_email := some "john.smith@example.com", satisfaction_score := some 5,
        services_count := some 8, customer_lifetime_value := some "high" } none = 8 ∧
    (8 : ℤ) ≠ 1 := by
  with_unfolding_all decide

/-- C8 (amended): with an existing snapshot the service count is always the
existing count plus 1; for a new customer it is the event's explicit nonzero
`services_count` when supplied, and 1 otherwise. -/
theorem C8_service_count_amended (cd : CustomerData) (ex : Option ExistingFeatures) :
    (∀ e c, ex = some e → e.service_count = some c →
      calculate_service_count cd ex = c + 1) ∧
    ((ex = none ∨ ∃ e, ex = some e ∧ e.service_count = none) →
      ((∀ n, cd.services_count = some n → n ≠ 0 → calculate_service_count cd ex = n) ∧
       ((cd.services_count = none ∨ cd.services_count = some 0) →
         calculate_service_count cd ex = 1))) := by
  constructor
  · intro e c he hc
    simp [calculate_service_count, he, hc]
  · intro hex
    constructor
    · intro n hn hne
      rcases hex with rfl | ⟨e, rfl, hc⟩
      · simp [calculate_service_count, hn, hne]
      · simp [calculate_service_count, hn, hne, hc]
    · intro hn
      rcases hex with rfl | ⟨e, rfl, hc⟩ <;> rcases hn with hn | hn
      · simp [calculate_service_count, hn]
      · simp [calculate_service_count, hn]
      · simp [calculate_service_count, hn, hc]
      · simp [calculate_service_count, hn, hc]

theorem C8_service_count_amended_witness :
    (some (8 : ℤ) = some 8 ∧ (8 : ℤ) ≠ 0) ∧
    calculate_service_count
      { customer_email := some "john.smith@example.com", satisfaction_score := some 5,
        services_count := some 8, customer_lifetime_value := some "high" } none = 8 :=
  ⟨⟨rfl, by decide⟩,
    ((C8_service_count_amended
      { customer_email := some "john.smith@example.com", satisfaction_score := some 5,
        services_count := some 8, customer_lifetime_value := some "high" } none).2
      (Or.inl rfl)).1 8 rfl (by decide)⟩


/-! ## Retry-loop helper lemmas -/

theorem cbj_reason_none (o : JudgeOutcome) :
    jlookup (call_bedrock_judge o) "reason" = none := by
  cases o <;> rfl

theorem dictGetS_cbj_reason (o : JudgeOutcome) (d : String) :
    dictGetS (call_bedrock_judge o) "reason" d = d := by
  rw [dictGetS, cbj_reason_none]

theorem cbj_success_approved (jm : LLMJudgment) :
    dictGetB (call_bedrock_judge (.success jm)) "approved" false = jm.approved.getD false :=
  rfl

theorem cbj_failure_approved (m : String) :
    dictGetB (call_bedrock_judge (.failure m)) "approved" false = false := rfl

theorem cbj_failure_score (m : String) :
    dictGetI (call_bedrock_judge (.failure m)) "score" 0 = 0 := rfl

theorem cbj_failure_issues (m : String) :
    dictGetLS (call_bedrock_judge (.failure m)) "issues" [] = ["Judge evaluation failed"] := rfl

theorem cbj_failure_feedback (m : String) :
    dictGetS (call_bedrock_judge (.failure m)) "feedback" "" = "Error: " ++ m := rfl

theorem runLoop_zero (g : ℕ → String) (j : ℕ → JudgeOutcome) (st : LoopState)
    (tr : List GenCall) : runLoop g j 0 st tr = (st, tr) := rfl

theorem runLoop_succ_rejected (g : ℕ → String) (j : ℕ → JudgeOutcome) (fuel : ℕ)
    (st : LoopState) (tr : List GenCall)
    (hr : st.retry_count ≤ MAX_RETRIES)
    (hA : dictGetB (call_bedrock_judge (j st.retry_count)) "approved" false = false)
    (hR : dictGetS (call_bedrock_judge (j st.retry_count)) "reason" "brand" ≠
      "appropriateness") :
    runLoop g j (fuel + 1) st tr =
      runLoop g j fuel
        { st with
          previous_feedback :=
            some (dictGetS (call_bedrock_judge (j st.retry_count)) "feedback" ""),
          retry_count := st.retry_count + 1,
          final_judgment := some (call_bedrock_judge (j st.retry_count)),
          final_email_content := some (g st.retry_count) }
        (tr ++ [⟨st.retry_count, st.previous_feedback, genTemperature st.retry_count⟩]) := by
  rw [runLoop, if_pos hr, hA]
  rw [if_neg (by simp), if_neg hR]

theorem runLoop_all_rejected (g : ℕ → String) (j : ℕ → JudgeOutcome)
    (hA : ∀ n, dictGetB (call_bedrock_judge (j n)) "approved" false = false)
    (hR : ∀ n, dictGetS (call_bedrock_judge (j n)) "reason" "brand" ≠ "appropriateness") :
    runLoop g j (MAX_RETRIES + 1)
      { retry_count := 0, approved := false, final_email_content := none
        final_judgment := none, previous_feedback := none } [] =
      ({ retry_count := 3, approved := false, final_email_content := some (g 2)
         final_judgment := some (call_bedrock_judge (j 2))
         previous_feedback := some (dictGetS (call_bedrock_judge (j 2)) "feedback" "") },
       [⟨0, none, genTemperature 0⟩,
        ⟨1, some (dictGetS (call_bedrock_judge (j 0)) "feedback" ""), genTemperature 1⟩,
        ⟨2, some (dictGetS (call_bedrock_judge (j 1)) "feedback" ""), genTemperature 2⟩]) :=
  calc
    runLoop g j (MAX_RETRIES + 1)
        { retry_count := 0, approved := false, final_email_content := none
          final_judgment := none, previous_feedback := none } []
      = runLoop g j 2
        { retry_count := 1, approved := false, final_email_content := some (g 0)
          final_judgment := some (call_bedrock_judge (j 0))
          previous_feedback := some (dictGetS (call_bedrock_judge (j 0)) "feedback" "") }
        [⟨0, none, genTemperature 0⟩] :=
      runLoop_succ_rejected g j 2 _ _ (by decide) (hA 0) (hR 0)
    _ = runLoop g j 1
        { retry_count := 2, approved := false, final_email_content := some (g 1)
          final_judgment := some (call_bedrock_judge (j 1))
          previous_feedback := some (dictGetS (call_bedrock_judge (j 1)) "feedback" "") }
        [⟨0, none, genTemperature 0⟩,
         ⟨1, some (dictGetS (call_bedrock_judge (j 0)) "feedback" ""), genTemperature 1⟩] :=
      runLoop_succ_rejected g j 1 _ _ (by simp [MAX_RETRIES]) (hA 1) (hR 1)
    _ = runLoop g j 0
        { retry_count := 3, approved := false, final_email_content := some (g 2)
          final_judgment := some (call_bedrock_judge (j 2))
          previous_feedback := some (dictGetS (call_bedrock_judge (j 2)) "feedback" "") }
        [⟨0, none, genTemperature 0⟩,
         ⟨1, some (dictGetS (call_bedrock_judge (j 0)) "feedback" ""), genTemperature 1⟩,
         ⟨2, some (dictGetS (call_bedrock_judge (j 1)) "feedback" ""), genTemperature 2⟩] :=
      runLoop_succ_rejected g j 0 _ _ (by simp [MAX_RETRIES]) (hA 2) (hR 2)
    _ = _ := runLoop_zero g j _ _

theorem runLoop_judgment_inv (g : ℕ → String) (j : ℕ → JudgeOutcome) :
    ∀ (fuel : ℕ) (st : LoopState) (tr : List GenCall),
      (st.final_judgment = none ∨ ∃ n, st.final_judgment = some (call_bedrock_judge (j n))) →
      ((runLoop g j fuel st tr).1.final_judgment = none ∨
        ∃ n, (runLoop g j fuel st tr).1.final_judgment = some (call_bedrock_judge (j n))) := by
  intro fuel
  induction fuel with
  | zero => intro st tr h; exact h
  | succ n ih =>
    intro st tr h
    rw [runLoop]
    by_cases hc : st.retry_count ≤ MAX_RETRIES
    · rw [if_pos hc]
      by_cases hb : dictGetB (call_bedrock_judge (j st.retry_count)) "approved" false = true
      · rw [if_pos hb]
        refine Or.inr ⟨st.retry_count, ?_⟩
        rfl
      · rw [if_neg hb]
        by_cases hr : dictGetS (call_bedrock_judge (j st.retry_count)) "reason" "brand" =
            "appropriateness"
        · rw [if_pos hr]
          refine Or.inr ⟨st.retry_count, ?_⟩
          rfl
        · rw [if_neg hr]
          exact ih _ _ (Or.inr ⟨st.retry_count, rfl⟩)
    · rw [if_neg hc]
      exact h

theorem runLoop_trace (g : ℕ → String) (j : ℕ → JudgeOutcome) :
    ∀ (fuel : ℕ) (st : LoopState) (tr : List GenCall),
      (runLoop g j fuel st tr).2 = tr ++ traceFrom j fuel st.retry_count st.previous_feedback := by
  intro fuel
  induction fuel with
  | zero => intro st tr; simp [runLoop, traceFrom]
  | succ n ih =>
    intro st tr
    rw [runLoop, traceFrom]
    by_cases hc : st.retry_count ≤ MAX_RETRIES
    · rw [if_pos hc, if_pos hc]
      by_cases hb : dictGetB (call_bedrock_judge (j st.retry_count)) "approved" false = true
      · rw [if_pos hb, if_pos hb]
      · rw [if_neg hb, if_neg hb]
        by_cases hr : dictGetS (call_bedrock_judge (j st.retry_count)) "reason" "brand" =
            "appropriateness"
        · rw [if_pos hr, if_pos hr]
        · rw [if_neg hr, if_neg hr, ih]
          simp
    · rw [if_neg hc, if_neg hc]
      simp

theorem traceFrom_entry (j : ℕ → JudgeOutcome) :
    ∀ (fuel r : ℕ) (pf : Option String) (i : ℕ) (e : GenCall),
      (traceFrom j fuel r pf)[i]? = some e →
      e.retry_count = r + i ∧ e.temperature = genTemperature (r + i) ∧
      (i = 0 → e.previous_feedback = pf) ∧
      (∀ k, i = k + 1 → e.previous_feedback =
        some (dictGetS (call_bedrock_judge (j (r + k))) "feedback" "")) := by
  intro fuel
  induction fuel with
  | zero => intro r pf i e h; simp [traceFrom] at h
  | succ n ih =>
    intro r pf i e h
    rw [traceFrom] at h
    by_cases hc : r ≤ MAX_RETRIES
    · rw [if_pos hc] at h
      cases i with
      | zero =>
        rw [List.getElem?_cons_zero] at h
        injection h with he
        subst he
        exact ⟨by simp, by simp, fun _ => rfl, fun k hk => absurd hk (by omega)⟩
      | succ i2 =>
        rw [List.getElem?_cons_succ] at h
        by_cases hb : dictGetB (call_bedrock_judge (j r)) "approved" false = true
        · rw [if_pos hb] at h
          simp at h
        · rw [if_neg hb] at h
          by_cases hr : dictGetS (call_bedrock_judge (j r)) "reason" "brand" = "appropriateness"
          · rw [if_pos hr] at h
            simp at h
          · rw [if_neg hr] at h
            obtain ⟨h1, h2, h3, h4⟩ := ih (r + 1) _ i2 e h
            refine ⟨by rw [h1]; omega, ?_, fun h0 => absurd h0 (by omega), ?_⟩
            · rw [h2, show r + 1 + i2 = r + (i2 + 1) from by omega]
            · intro k hk
              have hki : k = i2 := by omega
              subst hki
              by_cases hz : k = 0
              · subst hz
                simpa using h3 rfl
              · obtain ⟨k2, rfl⟩ := Nat.exists_eq_succ_of_ne_zero hz
                rw [h4 k2 rfl, show r + 1 + k2 = r + (k2 + 1) from by omega]
    · rw [if_neg hc] at h
      simp at h

/-! ## Claims C1, C2, C3, C9, C10 -/

/-- C1 (code evaluation at the failing input): when every judge reply is
approved=false with reason `appropriateness`, the retry loop makes 3
generation attempts (not 1) and the persisted record carries
`rejectionReason = "N/A"` — the early-exit branch never fires because
`call_bedrock_judge` drops the `reason` key from the verdict it returns,
contradicting the judge prompt, the appropriateness branch and the record
field that all depend on it. -/
theorem C1_appropriateness_rejected_evaluation :
    (process_message ⟨some "CUST-1", some "a@b.com", some "John", some "Smith"⟩ "v1" 0
        (fun _ => "draft")
        (fun _ => .success ⟨some false, some 2, some ["contacted recently"],
          some "Do not contact this customer", some "appropriateness"⟩)).2.1.length = 3 ∧
    (process_message ⟨some "CUST-1", some "a@b.com", some "John", some "Smith"⟩ "v1" 0
        (fun _ => "draft")
        (fun _ => .success ⟨some false, some 2, some ["contacted recently"],
          some "Do not contact this customer", some "appropriateness"⟩)).1.retryCount = 3 ∧
    (process_message ⟨some "CUST-1", some "a@b.com", some "John", some "Smith"⟩ "v1" 0
        (fun _ => "draft")
        (fun _ => .success ⟨some false, some 2, some ["contacted recently"],
          some "Do not contact this customer", some "appropriateness"⟩)).1.rejectionReason
      = "N/A" ∧
    (process_message ⟨some "CUST-1", some "a@b.com", some "John", some "Smith"⟩ "v1" 0
        (fun _ => "draft")
        (fun _ => .success ⟨some false, some 2, some ["contacted recently"],
          some "Do not contact this customer", some "appropriateness"⟩)).1.status
      = "rejected" := by
  with_unfolding_all decide

/-- C2: for every sequence of judge verdicts that are all approved=false with
reason brand or service_validity, the retry loop makes exactly
MAX_RETRIES + 1 = 3 generation attempts and terminates with record status
`rejected`. -/
theorem C2_retry_bound (customer : WebhookCustomer) (av : String) (choice : Fin 5)
    (g : ℕ → String) (j : ℕ → JudgeOutcome)
    (h : ∀ n, ∃ jm, j n = .success jm ∧ jm.approved = some false ∧
      (jm.reason = some "brand" ∨ jm.reason = some "service_validity")) :
    (process_message customer av choice g j).2.1.length = MAX_RETRIES + 1 ∧
    (process_message customer av choice g j).1.status = "rejected" ∧
    (process_message customer av choice g j).1.retryCount = MAX_RETRIES + 1 := by
  have hA : ∀ n, dictGetB (call_bedrock_judge (j n)) "approved" false = false := by
    intro n
    obtain ⟨jm, hjn, hap, _⟩ := h n
    rw [hjn, cbj_success_approved, hap]
    rfl
  have hR : ∀ n, dictGetS (call_bedrock_judge (j n)) "reason" "brand" ≠ "appropriateness" := by
    intro n
    rw [dictGetS_cbj_reason]
    decide
  have key := runLoop_all_rejected g j hA hR
  simp only [process_message, key]
  exact ⟨rfl, rfl, rfl⟩

theorem C2_retry_bound_witness :
    (∀ n : ℕ, ∃ jm,
      (fun _ : ℕ => JudgeOutcome.success
        ⟨some false, some 3, some ["not in catalog"], some "Pick another service",
          some "service_validity"⟩) n = .success jm ∧
      jm.approved = some false ∧
      (jm.reason = some "brand" ∨ jm.reason = some "service_validity")) ∧
    ((process_message ⟨some "CUST-1", some "a@b.com", some "John", some "Smith"⟩ "v1" 0
        (fun _ => "draft")
        (fun _ : ℕ => JudgeOutcome.success
          ⟨some false, some 3, some ["not in catalog"], some "Pick another service",
            some "service_validity"⟩)).2.1.length = MAX_RETRIES + 1 ∧
     (process_message ⟨some "CUST-1", some "a@b.com", some "John", some "Smith"⟩ "v1" 0
        (fun _ => "draft")
        (fun _ : ℕ => JudgeOutcome.success
          ⟨some false, some 3, some ["not in catalog"], some "Pick another service",
            some "service_validity"⟩)).1.status = "rejected" ∧
     (process_message ⟨some "CUST-1", some "a@b.com", some "John", some "Smith"⟩ "v1" 0
        (fun _ => "draft")
        (fun _ : ℕ => JudgeOutcome.success
          ⟨some false, some 3, some ["not in catalog"], some "Pick another service",
            some "service_validity"⟩)).1.retryCount = MAX_RETRIES + 1) :=
  ⟨fun _ => ⟨_, rfl, rfl, Or.inr rfl⟩,
    C2_retry_bound ⟨some "CUST-1", some "a@b.com", some "John", some "Smith"⟩ "v1" 0
      (fun _ => "draft") _ (fun _ => ⟨_, rfl, rfl, Or.inr rfl⟩)⟩

/-- C3: a failed judge inference call never raises past `call_bedrock_judge`:
it yields the fail-closed verdict (approved=false, score=0, an issue naming
the failure, feedback carrying the error text), and a pipeline whose judge
calls all fail still assembles and persists a decision record for the event
(status `rejected`, with the fail-closed fields). -/
theorem C3_judge_fails_closed (msgs : ℕ → String) (customer : WebhookCustomer)
    (av : String) (choice : Fin 5) (g : ℕ → String) :
    (∀ m, call_bedrock_judge (.failure m) =
      [("approved", JVal.b false), ("score", JVal.i 0),
       ("issues", JVal.ls ["Judge evaluation failed"]),
       ("feedback", JVal.s ("Error: " ++ m)), ("judgment_time", JVal.q 0)]) ∧
    ((process_message customer av choice g (fun n => .failure (msgs n))).1.status
        = "rejected" ∧
     (process_message customer av choice g (fun n => .failure (msgs n))).1.judgeApproved
        = false ∧
     (process_message customer av choice g (fun n => .failure (msgs n))).1.llmJudgeScore
        = 0 ∧
     (process_message customer av choice g (fun n => .failure (msgs n))).1.judgeIssues
        = ["Judge evaluation failed"] ∧
     (process_message customer av choice g (fun n => .failure (msgs n))).1.judgeFeedback
        = "Error: " ++ msgs 2) := by
  constructor
  · intro m
    rfl
  · have hA : ∀ n, dictGetB (call_bedrock_judge ((fun k => JudgeOutcome.failure (msgs k)) n))
        "approved" false = false := fun n => rfl
    have hR : ∀ n, dictGetS (call_bedrock_judge ((fun k => JudgeOutcome.failure (msgs k)) n))
        "reason" "brand" ≠ "appropriateness" := by
      intro n
      rw [dictGetS_cbj_reason]
      decide
    have key := runLoop_all_rejected g (fun k => .failure (msgs k)) hA hR
    simp only [process_message, key]
    exact ⟨rfl, rfl, rfl, rfl, rfl⟩

/-- C9: every retry attempt (index > 0) receives the previous verdict's
feedback as `previous_feedback`, runs at the elevated temperature 0.8
(against 0.7 on attempt 0), and the generator prompt for such an attempt
embeds the feedback text verbatim as corrective instruction. -/
theorem C9_retry_feedback_and_temperature (customer : WebhookCustomer) (av : String)
    (choice : Fin 5) (g : ℕ → String) (j : ℕ → JudgeOutcome) (i : ℕ) (e : GenCall)
    (h : (process_message customer av choice g j).2.1[i + 1]? = some e) :
    e.retry_count = i + 1 ∧
    e.previous_feedback = some (dictGetS (call_bedrock_judge (j i)) "feedback" "") ∧
    e.temperature = 8/10 ∧ genTemperature 0 = 7/10 ∧
    (∀ cds bg ft fb, fb ≠ "" →
      fb.data <:+: (call_bedrock_generator_prompt cds bg ft (i + 1) (some fb)).data) := by
  have htr : (process_message customer av choice g j).2.1 =
      traceFrom j (MAX_RETRIES + 1) 0 none := by
    simp only [process_message]
    rw [runLoop_trace]
    simp
  rw [htr] at h
  obtain ⟨h1, h2, h3, h4⟩ := traceFrom_entry j (MAX_RETRIES + 1) 0 none (i + 1) e h
  refine ⟨by simpa using h1, ?_, ?_, rfl, ?_⟩
  · simpa using h4 i rfl
  · rw [h2]
    simp [genTemperature]
  · intro cds bg ft fb hfb
    refine ⟨(generatorPromptPre cds bg ft).data ++
        ("\n\nIMPORTANT - Previous attempt was rejected:\n").data,
      ("\nPlease address these issues and select a different service if needed.").data ++
        generatorPromptPost.data, ?_⟩
    simp [call_bedrock_generator_prompt, feedback_note, hfb, String.data_append]

theorem C9_retry_feedback_and_temperature_witness :
    ((process_message ⟨some "CUST-1", some "a@b.com", some "John", some "Smith"⟩ "v1" 0
        (fun _ => "draft")
        (fun n => if n = 0 then
            .success ⟨some false, some 4, some ["tone"], some "Needs work", none⟩
          else .success ⟨some true, some 8, some [], some "Better", none⟩)).2.1[0 + 1]? =
      some ⟨1, some "Needs work", 8/10⟩) ∧
    ((⟨1, some "Needs work", 8/10⟩ : GenCall).retry_count = 0 + 1 ∧
     (⟨1, some "Needs work", 8/10⟩ : GenCall).previous_feedback =
       some (dictGetS (call_bedrock_judge
         ((fun n => if n = 0 then
             JudgeOutcome.success ⟨some false, some 4, some ["tone"], some "Needs work", none⟩
           else JudgeOutcome.success ⟨some true, some 8, some [], some "Better", none⟩) 0))
         "feedback" "") ∧
     (⟨1, some "Needs work", 8/10⟩ : GenCall).temperature = 8/10 ∧ genTemperature 0 = 7/10 ∧
     (∀ cds bg ft fb, fb ≠ "" →
       fb.data <:+: (call_bedrock_generator_prompt cds bg ft (0 + 1) (some fb)).data)) :=
  ⟨by with_unfolding_all decide,
    C9_retry_feedback_and_temperature
      ⟨some "CUST-1", some "a@b.com", some "John", some "Smith"⟩ "v1" 0
      (fun _ => "draft")
      (fun n => if n = 0 then
          .success ⟨some false, some 4, some ["tone"], some "Needs work", none⟩
        else .success ⟨some true, some 8, some [], some "Better", none⟩)
      0 ⟨1, some "Needs work", 8/10⟩ (by with_unfolding_all decide)⟩

/-- C10: the verdict dictionary returned by `call_bedrock_judge` contains no
`reason` key (even when the parsed reply includes one), so the persisted
decision record's `rejectionReason` field always equals `N/A`. -/
theorem C10_reason_key_absent :
    (∀ o : JudgeOutcome, jlookup (call_bedrock_judge o) "reason" = none) ∧
    (∀ (customer : WebhookCustomer) (av : String) (choice : Fin 5)
      (g : ℕ → String) (j : ℕ → JudgeOutcome),
      (process_message customer av choice g j).1.rejectionReason = "N/A") := by
  constructor
  · exact cbj_reason_none
  · intro customer av choice g j
    have h := runLoop_judgment_inv g j (MAX_RETRIES + 1)
      { retry_count := 0, approved := false, final_email_content := none
        final_judgment := none, previous_feedback := none } [] (Or.inl rfl)
    simp only [process_message]
    rcases h with h | ⟨n, h⟩
    · rw [h]
      rfl
    · rw [h]
      exact dictGetS_cbj_reason _ _

end Referral
